import Mathlib

/-
Verification of the ring-buffer pipe core in src/pipe.c.

The channel state (`struct pipe`) is embedded as a Lean structure; `pipe_open`,
`pipe_read`, `pipe_write` and `pipe_release` are translated function by function.
The ring-buffer storage is modelled as a total byte map `Nat → Nat` so that a
copy that runs past the end of the allocated region (possible because of the
write-path clamp) stays observable instead of being silently truncated.
Blocking is sequentialized: an operation that would sleep returns a `blocked`
outcome naming the wait queue it sleeps on, and a successful operation reports
the wait queue it wakes, mirroring the `wait_event_interruptible` /
`wake_up_interruptible` calls in the source.  `copy_to_user` / `copy_from_user`
failures are injected through boolean fault flags, one per copy call of an
invocation; a copy of zero bytes never fails.
-/

namespace MyPipe

/-- The two wait queues of `struct pipe`: `p_readq` (reader queue) and
`p_writeq` (writer queue). -/
inductive WQueue
  | readq
  | writeq
deriving DecidableEq

/-- State of one `struct pipe` (src/pipe.c lines 22-46).  `rbuf_alloc` models
`p_rbuf != NULL`; `rbuf` is the byte content of the memory backing `p_rbuf`
(offsets at and beyond `size` model memory past the allocation).  The mutex,
cdev and wait-queue heads carry no data used by the claims. -/
structure Pipe where
  rbuf_alloc : Bool
  rbuf : Nat → Nat
  readp : Nat
  writep : Nat
  count : Nat
  size : Nat
  nr_readers : Int
  nr_writers : Int

/-- `memcpy` of `data` into byte map `m` at offset `off`
(the effect of `copy_from_user(m + off, data, data.length)`). -/
def writeBytes (m : Nat → Nat) (off : Nat) (data : List Nat) : Nat → Nat :=
  fun a => if off ≤ a ∧ a < off + data.length then data.getD (a - off) 0 else m a

/-- The `n` bytes of byte map `m` starting at offset `off`
(the bytes moved by `copy_to_user(dst, m + off, n)`). -/
def readBytes (m : Nat → Nat) (off : Nat) : Nat → List Nat
  | 0 => []
  | n + 1 => m off :: readBytes m (off + 1) n

/-- A user copy of `n` bytes faults iff the injected fault flag is set and
`n > 0`; `copy_to_user`/`copy_from_user` of zero bytes cannot fail. -/
def cfault (f : Bool) (n : Nat) : Bool := f && decide (0 < n)

/-- The clamp shared by both paths (src/pipe.c lines 139-140 and 219-220):
`if (count > pipe->p_count) count = pipe->p_count;` — the request is clamped
to the currently occupied byte count `p_count`. -/
def clampCount (p : Pipe) (n : Nat) : Nat := if n > p.count then p.count else n

/-- `topcount` of the two-segment branches (src/pipe.c lines 153-156 and
223-226): `topcount = p_size - pos; if (topcount > count) topcount = count;`
where `pos` is `p_readp` (read) or `p_writep` (write). -/
def topSeg (pos : Nat) (p : Pipe) (c : Nat) : Nat :=
  if p.size - pos > c then c else p.size - pos

/-- Outcome of `pipe_read` (src/pipe.c lines 106-185). -/
inductive ReadResult
  | ok (bytes : List Nat) (s : Pipe) (wake : WQueue)
  | again (s : Pipe)
  | blocked (s : Pipe) (sleepq : WQueue)
  | fault (s : Pipe)

/-- Outcome of `pipe_write` (src/pipe.c lines 187-262). -/
inductive WriteResult
  | ok (n : Nat) (s : Pipe) (wake : WQueue)
  | again (s : Pipe)
  | blocked (s : Pipe) (sleepq : WQueue)
  | fault (s : Pipe)

/-- `pipe_read` (src/pipe.c lines 106-185), sequentialized.  While
`p_count == 0` the reader returns `-EAGAIN` when `O_NONBLOCK` is set and
otherwise sleeps on `p_readq` (line 129); the sequential model reports the
sleep as `blocked`.  `f1`/`f2` inject faults of the first and second
`copy_to_user` call. -/
def pipe_read (nonblock f1 f2 : Bool) (k : Nat) (p : Pipe) : ReadResult :=
  if p.count = 0 then
    if nonblock then .again p
    else .blocked p .readq
  else if p.readp < p.writep then
    -- easy case (lines 143-150): one contiguous copy starting at p_readp
    if cfault f1 (clampCount p k) then .fault p
    else
      .ok (readBytes p.rbuf p.readp (clampCount p k))
        { p with
            readp := if p.readp + clampCount p k = p.size then 0
                     else p.readp + clampCount p k,
            count := p.count - clampCount p k }
        .writeq
  else
    -- hard case (lines 151-174): top half [p_readp, p_size) then bottom half [0, ...)
    if cfault f1 (topSeg p.readp p (clampCount p k)) then .fault p
    else if cfault f2 (clampCount p k - topSeg p.readp p (clampCount p k)) then .fault p
    else
      .ok (readBytes p.rbuf p.readp (topSeg p.readp p (clampCount p k)) ++
           readBytes p.rbuf 0 (clampCount p k - topSeg p.readp p (clampCount p k)))
        { p with
            readp := clampCount p k - topSeg p.readp p (clampCount p k),
            count := p.count - clampCount p k }
        .writeq

/-- `pipe_write` (src/pipe.c lines 187-262), sequentialized.  While
`p_count == p_size` the writer returns `-EAGAIN` when `O_NONBLOCK` is set and
otherwise sleeps — on `p_readq` (line 210, as written in the source).  The
clamp (lines 219-220) is against the occupied `p_count`.  On success the
writer wakes `p_readq` (line 257).  `f1`/`f2` inject faults of the first and
second `copy_from_user` call. -/
def pipe_write (nonblock f1 f2 : Bool) (data : List Nat) (p : Pipe) : WriteResult :=
  if p.count = p.size then
    if nonblock then .again p
    else .blocked p .readq
  else if p.readp < p.writep then
    -- two-segment branch (lines 222-244): top half at p_writep, bottom half at 0
    if cfault f1 (topSeg p.writep p (clampCount p data.length)) then .fault p
    else if cfault f2 (clampCount p data.length -
                       topSeg p.writep p (clampCount p data.length)) then
      .fault { p with
                 rbuf := writeBytes p.rbuf p.writep
                   (data.take (topSeg p.writep p (clampCount p data.length))) }
    else
      .ok (clampCount p data.length)
        { p with
            rbuf := writeBytes
              (writeBytes p.rbuf p.writep
                (data.take (topSeg p.writep p (clampCount p data.length))))
              0
              ((data.drop (topSeg p.writep p (clampCount p data.length))).take
                (clampCount p data.length -
                 topSeg p.writep p (clampCount p data.length))),
            writep := clampCount p data.length -
                      topSeg p.writep p (clampCount p data.length),
            count := p.count + clampCount p data.length }
        .readq
  else
    -- contiguous branch (lines 245-253): one copy at p_writep, p_writep += count
    if cfault f1 (clampCount p data.length) then .fault p
    else
      .ok (clampCount p data.length)
        { p with
            rbuf := writeBytes p.rbuf p.writep (data.take (clampCount p data.length)),
            writep := p.writep + clampCount p data.length,
            count := p.count + clampCount p data.length }
        .readq

/-- Outcome of `pipe_open` (src/pipe.c lines 67-104). -/
inductive OpenResult
  | ok (s : Pipe)
  | nomem (s : Pipe)

/-- `pipe_open` (src/pipe.c lines 67-104): allocate the ring buffer zeroed if
absent (`kzalloc`, failure injected by `allocFail`), then reset `p_size`,
`p_readp`, `p_writep`, `p_count`, and bump the reader/writer counts per the
open mode.  `psize` is the module parameter `pipe_size`. -/
def pipe_open (psize : Nat) (rd wr allocFail : Bool) (p : Pipe) : OpenResult :=
  if !p.rbuf_alloc && allocFail then .nomem p
  else
    let p1 := if p.rbuf_alloc then p else { p with rbuf_alloc := true, rbuf := fun _ => 0 }
    .ok { p1 with
            size := psize, readp := 0, writep := 0, count := 0,
            nr_readers := p1.nr_readers + (if rd then 1 else 0),
            nr_writers := p1.nr_writers + (if wr then 1 else 0) }

/-- `pipe_release` (src/pipe.c lines 264-284): decrement the counts per the
file mode; free the buffer exactly when the post-decrement sum is zero. -/
def pipe_release (rd wr : Bool) (p : Pipe) : Pipe :=
  let p1 := { p with
                nr_readers := p.nr_readers - (if rd then 1 else 0),
                nr_writers := p.nr_writers - (if wr then 1 else 0) }
  if p1.nr_readers + p1.nr_writers = 0 then { p1 with rbuf_alloc := false } else p1

/-- The channel state an outcome of `pipe_read` leaves behind. -/
def ReadResult.state : ReadResult → Pipe
  | .ok _ s _ => s
  | .again s => s
  | .blocked s _ => s
  | .fault s => s

/-- The channel state an outcome of `pipe_write` leaves behind. -/
def WriteResult.state : WriteResult → Pipe
  | .ok _ s _ => s
  | .again s => s
  | .blocked s _ => s
  | .fault s => s

/-- Bytes delivered to the caller by a successful read. -/
def ReadResult.bytes? : ReadResult → Option (List Nat)
  | .ok b _ _ => some b
  | _ => none

/-- Queue woken by a successful read (src/pipe.c line 180). -/
def ReadResult.wake? : ReadResult → Option WQueue
  | .ok _ _ w => some w
  | _ => none

/-- Queue a blocked reader sleeps on (src/pipe.c line 129). -/
def ReadResult.sleep? : ReadResult → Option WQueue
  | .blocked _ q => some q
  | _ => none

/-- `p_readp` after a successful read. -/
def ReadResult.readp? : ReadResult → Option Nat
  | .ok _ s _ => some s.readp
  | _ => none

/-- Byte count returned by a successful write. -/
def WriteResult.count? : WriteResult → Option Nat
  | .ok n _ _ => some n
  | _ => none

/-- Queue woken by a successful write (src/pipe.c line 257). -/
def WriteResult.wake? : WriteResult → Option WQueue
  | .ok _ _ w => some w
  | _ => none

/-- Queue a blocked writer sleeps on (src/pipe.c line 210). -/
def WriteResult.sleep? : WriteResult → Option WQueue
  | .blocked _ q => some q
  | _ => none

/-- `p_writep` after a successful write. -/
def WriteResult.writep? : WriteResult → Option Nat
  | .ok _ s _ => some s.writep
  | _ => none

/-- The state a pipe of capacity `n` is in right after `pipe_open` first
allocates it: zeroed buffer, ring fields reset, one reader and one writer. -/
def freshPipe (n : Nat) : Pipe :=
  { rbuf_alloc := true, rbuf := fun _ => 0, readp := 0, writep := 0,
    count := 0, size := n, nr_readers := 1, nr_writers := 1 }

/-- States reachable from a freshly opened pipe by any sequence of
`pipe_read` / `pipe_write` calls, with any blocking mode, any injected
copy faults and any arguments. -/
inductive Reach (n : Nat) : Pipe → Prop
  | init : Reach n (freshPipe n)
  | read (nb f1 f2 : Bool) (k : Nat) {p : Pipe} :
      Reach n p → Reach n ((pipe_read nb f1 f2 k p).state)
  | write (nb f1 f2 : Bool) (data : List Nat) {p : Pipe} :
      Reach n p → Reach n ((pipe_write nb f1 f2 data p).state)

/-- A pipe of capacity 1 holding one byte: full for writers, nonempty for
readers.  Used to exhibit the wait-queue usage of both paths. -/
def onePipe : Pipe :=
  { rbuf_alloc := true, rbuf := fun _ => 7, readp := 0, writep := 0,
    count := 1, size := 1, nr_readers := 1, nr_writers := 1 }

/-- A pipe of capacity 2 holding one byte at offset 0 (`readp < writep`), so
both the read path and the write path take a branch whose first copy call
moves a positive number of bytes. -/
def halfPipe : Pipe :=
  { rbuf_alloc := true, rbuf := fun _ => 0, readp := 0, writep := 1,
    count := 1, size := 2, nr_readers := 1, nr_writers := 1 }

/-- `cfault` of a zero-length copy is never a fault. -/
lemma cfault_zero (f : Bool) : cfault f 0 = false := by simp [cfault]

/-- The clamp evaluates to zero on an empty pipe. -/
lemma clampCount_of_count_zero (p : Pipe) (n : Nat) (h : p.count = 0) :
    clampCount p n = 0 := by
  unfold clampCount; split <;> omega

/-- A zero-byte request yields a zero-length top segment. -/
lemma topSeg_zero (pos : Nat) (p : Pipe) : topSeg pos p 0 = 0 := by
  unfold topSeg; split <;> omega

/-- C1: the write path clamps the request to the occupied byte count
`p_count` (src/pipe.c lines 219-220), not to the free space `p_size -
p_count`: a 3-byte write to a fresh (empty) pipe of size 4 transfers and
returns 0 bytes, while the free-space clamp demanded by the claim would
transfer `min 3 (4 - 0) = 3`. -/
theorem write_clamps_to_occupied_eval :
    (pipe_write false false false [1, 2, 3] (freshPipe 4)).count? = some 0 ∧
    min 3 ((freshPipe 4).size - (freshPipe 4).count) = 3 ∧ (0 : Nat) ≠ 3 := by
  decide

/-- C3: the write-then-read round trip fails on the code: writing `S = [5]`
to a fresh pipe of size 4 transfers 0 bytes (the write clamps to the occupied
count 0), the pipe stays empty, and the subsequent 1-byte read does not
deliver `S` — a non-blocking reader gets `-EAGAIN` and a blocking reader
sleeps. -/
theorem roundtrip_fails_eval :
    (pipe_write false false false [5] (freshPipe 4)).count? = some 0 ∧
    ((pipe_write false false false [5] (freshPipe 4)).state).count = 0 ∧
    (pipe_read true false false 1
      ((pipe_write false false false [5] (freshPipe 4)).state)).bytes? = none ∧
    (pipe_read false false false 1
      ((pipe_write false false false [5] (freshPipe 4)).state)).bytes? = none := by
  decide

/-- C5: a successful read wakes `p_writeq` (src/pipe.c line 180), but a
writer blocked on a full pipe sleeps on `p_readq` (line 210) — not the same
wait set, so the wake-up after a read never reaches the blocked writer. -/
theorem read_wakes_queue_writers_do_not_sleep_on :
    (pipe_read false false false 1 onePipe).wake? = some WQueue.writeq ∧
    (pipe_write false false false [9] onePipe).sleep? = some WQueue.readq ∧
    WQueue.writeq ≠ WQueue.readq := by
  decide

/-- C6: whenever a `copy_to_user`/`copy_from_user` call of `pipe_read` or
`pipe_write` faults — on the first or the second segment — the call returns
the fault error with `p_readp`, `p_writep` and `p_count` exactly as they were
when the transfer began: every state update in the source happens only after
all copies of the invocation succeeded. -/
theorem fault_leaves_offsets_unchanged (p : Pipe) (nb f1 f2 : Bool) (k : Nat)
    (data : List Nat) :
    (∀ q : Pipe, pipe_read nb f1 f2 k p = ReadResult.fault q →
       q.readp = p.readp ∧ q.writep = p.writep ∧ q.count = p.count) ∧
    (∀ q : Pipe, pipe_write nb f1 f2 data p = WriteResult.fault q →
       q.readp = p.readp ∧ q.writep = p.writep ∧ q.count = p.count) := by
  constructor
  · intro q hq
    unfold pipe_read at hq
    repeat' split at hq
    all_goals cases hq
    all_goals exact ⟨rfl, rfl, rfl⟩
  · intro q hq
    unfold pipe_write at hq
    repeat' split at hq
    all_goals cases hq
    all_goals exact ⟨rfl, rfl, rfl⟩

/-- Witness for `fault_leaves_offsets_unchanged`: on `halfPipe` both the
read path and the write path fault when the first copy call faults. -/
theorem fault_leaves_offsets_unchanged_witness :
    (pipe_read false true false 1 halfPipe = ReadResult.fault halfPipe ∧
     pipe_write false true false [9] halfPipe = WriteResult.fault halfPipe) ∧
    ((halfPipe.readp = halfPipe.readp ∧ halfPipe.writep = halfPipe.writep ∧
      halfPipe.count = halfPipe.count) ∧
     (halfPipe.readp = halfPipe.readp ∧ halfPipe.writep = halfPipe.writep ∧
      halfPipe.count = halfPipe.count)) :=
  ⟨⟨rfl, rfl⟩,
   ⟨(fault_leaves_offsets_unchanged halfPipe false true false 1 [9]).1 halfPipe rfl,
    (fault_leaves_offsets_unchanged halfPipe false true false 1 [9]).2 halfPipe rfl⟩⟩

/-- C7: a non-blocking read of an empty pipe returns `-EAGAIN` with the whole
channel state unchanged, and a non-blocking write to a full pipe returns
`-EAGAIN` with the whole channel state unchanged (src/pipe.c lines 120-126
and 201-207). -/
theorem nonblock_empty_full_eagain (p : Pipe) (f1 f2 : Bool) (k : Nat)
    (data : List Nat) :
    (p.count = 0 → pipe_read true f1 f2 k p = ReadResult.again p) ∧
    (p.count = p.size → pipe_write true f1 f2 data p = WriteResult.again p) := by
  constructor
  · intro h; simp [pipe_read, h]
  · intro h; simp [pipe_write, h]

/-- Witness for `nonblock_empty_full_eagain` at a pipe of size 0, which is
simultaneously empty and full. -/
theorem nonblock_empty_full_eagain_witness :
    (freshPipe 0).count = 0 ∧ (freshPipe 0).count = (freshPipe 0).size ∧
    pipe_read true false false 1 (freshPipe 0) = ReadResult.again (freshPipe 0) ∧
    pipe_write true false false [9] (freshPipe 0) = WriteResult.again (freshPipe 0) :=
  ⟨rfl, rfl,
   (nonblock_empty_full_eagain (freshPipe 0) false false 1 [9]).1 rfl,
   (nonblock_empty_full_eagain (freshPipe 0) false false 1 [9]).2 rfl⟩

/-- C10: a read of 0 bytes from an empty pipe does not return 0: the
`while (!pipe->p_count)` loop (src/pipe.c line 120) runs before the request
is clamped (lines 139-140), so a non-blocking reader gets `-EAGAIN` and a
blocking reader sleeps on `p_readq`. -/
theorem read_zero_bytes_empty_blocks (p : Pipe) (f1 f2 : Bool)
    (h : p.count = 0) :
    pipe_read true f1 f2 0 p = ReadResult.again p ∧
    pipe_read false f1 f2 0 p = ReadResult.blocked p WQueue.readq := by
  constructor <;> simp [pipe_read, h]

/-- Witness for `read_zero_bytes_empty_blocks` on a fresh pipe of size 4. -/
theorem read_zero_bytes_empty_blocks_witness :
    (freshPipe 4).count = 0 ∧
    pipe_read true false false 0 (freshPipe 4) = ReadResult.again (freshPipe 4) ∧
    pipe_read false false false 0 (freshPipe 4) =
      ReadResult.blocked (freshPipe 4) WQueue.readq :=
  ⟨rfl, (read_zero_bytes_empty_blocks (freshPipe 4) false false rfl).1,
   (read_zero_bytes_empty_blocks (freshPipe 4) false false rfl).2⟩

/-- C9: any write to an empty pipe (`p_count == 0`, in particular a fresh
pipe) transfers 0 bytes, returns 0, and still wakes `p_readq`: the clamp at
src/pipe.c lines 219-220 reduces the request to the occupied count 0, and
the success path (lines 255-258) runs with a zero-length copy. -/
theorem write_on_empty_returns_zero (p : Pipe) (nb f1 f2 : Bool)
    (data : List Nat) (h0 : p.count = 0) (hs : 0 < p.size) :
    (pipe_write nb f1 f2 data p).count? = some 0 ∧
    (pipe_write nb f1 f2 data p).wake? = some WQueue.readq := by
  have hne : ¬ p.count = p.size := by omega
  have hcl : clampCount p data.length = 0 := clampCount_of_count_zero p data.length h0
  by_cases hrw : p.readp < p.writep
  · simp [pipe_write, hne, hrw, hcl, topSeg_zero, cfault_zero,
          WriteResult.count?, WriteResult.wake?]
  · simp [pipe_write, hne, hrw, hcl, cfault_zero,
          WriteResult.count?, WriteResult.wake?]

/-- Witness for `write_on_empty_returns_zero` on a fresh pipe of size 4. -/
theorem write_on_empty_returns_zero_witness :
    (freshPipe 4).count = 0 ∧ 0 < (freshPipe 4).size ∧
    (pipe_write false false false [1, 2] (freshPipe 4)).count? = some 0 ∧
    (pipe_write false false false [1, 2] (freshPipe 4)).wake? = some WQueue.readq :=
  ⟨rfl, by decide,
   (write_on_empty_returns_zero (freshPipe 4) false false false [1, 2] rfl (by decide)).1,
   (write_on_empty_returns_zero (freshPipe 4) false false false [1, 2] rfl (by decide)).2⟩

/-- A read of an empty pipe leaves the state untouched. -/
lemma pipe_read_state_of_empty (nb f1 f2 : Bool) (k : Nat) (p : Pipe)
    (h : p.count = 0) : (pipe_read nb f1 f2 k p).state = p := by
  unfold pipe_read
  rw [if_pos h]
  cases nb <;> rfl

/-- A write to an empty pipe in the contiguous layout (`¬ readp < writep`)
leaves all ring fields where they were: the clamp reduces the transfer to 0
bytes. -/
lemma pipe_write_state_empty_nowrap (nb f1 f2 : Bool) (data : List Nat)
    (p : Pipe) (h0 : p.count = 0) (hrw : ¬ p.readp < p.writep) :
    ((pipe_write nb f1 f2 data p).state).count = p.count ∧
    ((pipe_write nb f1 f2 data p).state).readp = p.readp ∧
    ((pipe_write nb f1 f2 data p).state).writep = p.writep ∧
    ((pipe_write nb f1 f2 data p).state).size = p.size := by
  have hcl : clampCount p data.length = 0 :=
    clampCount_of_count_zero p data.length h0
  by_cases hfull : p.count = p.size
  · unfold pipe_write
    rw [if_pos hfull]
    cases nb <;> exact ⟨rfl, rfl, rfl, rfl⟩
  · unfold pipe_write
    rw [if_neg hfull, if_neg hrw, hcl]
    rw [if_neg (by simp [cfault])]
    exact ⟨by simp [WriteResult.state], rfl, by simp [WriteResult.state], rfl⟩

/-- Every state reachable from a fresh pipe by read/write calls still has
`count = readp = writep = 0`: a read of an empty pipe never proceeds, and a
write is clamped to the occupied count 0 (src/pipe.c lines 219-220), so it
transfers nothing and leaves the ring fields where they were. -/
lemma reach_ring_frozen {n : Nat} {p : Pipe} (h : Reach n p) :
    p.count = 0 ∧ p.readp = 0 ∧ p.writep = 0 ∧ p.size = n := by
  induction h with
  | init => exact ⟨rfl, rfl, rfl, rfl⟩
  | read nb f1 f2 k h ih =>
      obtain ⟨hc, hr, hw, hs⟩ := ih
      rw [pipe_read_state_of_empty nb f1 f2 k _ hc]
      exact ⟨hc, hr, hw, hs⟩
  | write nb f1 f2 data h ih =>
      obtain ⟨hc, hr, hw, hs⟩ := ih
      obtain ⟨e1, e2, e3, e4⟩ :=
        pipe_write_state_empty_nowrap nb f1 f2 data _ hc (by omega)
      exact ⟨e1.trans hc, e2.trans hr, e3.trans hw, e4.trans hs⟩

/-- C2: starting from a freshly opened channel, after every `pipe_read` /
`pipe_write` call the invariants `0 ≤ count ≤ size` and
`readPos, writePos ∈ [0, size)` hold.  (They hold degenerately: because the
write path clamps to the occupied count, no operation ever moves the ring
fields away from the fresh state.) -/
theorem reachable_state_invariants (n : Nat) (p : Pipe) (hn : 0 < n)
    (h : Reach n p) :
    p.count ≤ p.size ∧ p.readp < p.size ∧ p.writep < p.size := by
  obtain ⟨hc, hr, hw, hs⟩ := reach_ring_frozen h
  rw [hc, hr, hw, hs]
  exact ⟨Nat.zero_le n, hn, hn⟩

/-- Witness for `reachable_state_invariants`: the fresh pipe of size 4 after
one write and one read. -/
theorem reachable_state_invariants_witness :
    0 < 4 ∧
    Reach 4 ((pipe_read true false false 3
      ((pipe_write false false false [1, 2] (freshPipe 4)).state)).state) ∧
    (((pipe_read true false false 3
        ((pipe_write false false false [1, 2] (freshPipe 4)).state)).state).count ≤
       ((pipe_read true false false 3
        ((pipe_write false false false [1, 2] (freshPipe 4)).state)).state).size ∧
     ((pipe_read true false false 3
        ((pipe_write false false false [1, 2] (freshPipe 4)).state)).state).readp <
       ((pipe_read true false false 3
        ((pipe_write false false false [1, 2] (freshPipe 4)).state)).state).size ∧
     ((pipe_read true false false 3
        ((pipe_write false false false [1, 2] (freshPipe 4)).state)).state).writep <
       ((pipe_read true false false 3
        ((pipe_write false false false [1, 2] (freshPipe 4)).state)).state).size) :=
  ⟨by decide,
   Reach.read true false false 3 (Reach.write false false false [1, 2] Reach.init),
   reachable_state_invariants 4 _ (by decide)
     (Reach.read true false false 3 (Reach.write false false false [1, 2] Reach.init))⟩

/-- The channel state an outcome of `pipe_open` leaves behind. -/
def OpenResult.state : OpenResult → Pipe
  | .ok s => s
  | .nomem s => s

/-- Whether `pipe_open` succeeded. -/
def OpenResult.succeeded : OpenResult → Bool
  | .ok _ => true
  | .nomem _ => false

/-- C8: `pipe_release` decrements `p_nr_readers`/`p_nr_writers` per the modes
the session was opened with and frees the buffer (sets `p_rbuf = NULL`)
exactly when the post-decrement sum reaches 0 (src/pipe.c lines 264-284); a
subsequent `pipe_open` succeeds, reallocates the buffer and resets
`p_count`, `p_readp`, `p_writep` to 0 (lines 79-91). -/
theorem release_frees_last_open_resets (p : Pipe) (rd wr rd2 wr2 : Bool)
    (psize : Nat) (halloc : p.rbuf_alloc = true) :
    (pipe_release rd wr p).nr_readers = p.nr_readers - (if rd then 1 else 0) ∧
    (pipe_release rd wr p).nr_writers = p.nr_writers - (if wr then 1 else 0) ∧
    ((pipe_release rd wr p).rbuf_alloc = false ↔
       (pipe_release rd wr p).nr_readers + (pipe_release rd wr p).nr_writers = 0) ∧
    (pipe_open psize rd2 wr2 false (pipe_release rd wr p)).succeeded = true ∧
    ((pipe_open psize rd2 wr2 false (pipe_release rd wr p)).state).rbuf_alloc = true ∧
    ((pipe_open psize rd2 wr2 false (pipe_release rd wr p)).state).count = 0 ∧
    ((pipe_open psize rd2 wr2 false (pipe_release rd wr p)).state).readp = 0 ∧
    ((pipe_open psize rd2 wr2 false (pipe_release rd wr p)).state).writep = 0 ∧
    ((pipe_open psize rd2 wr2 false (pipe_release rd wr p)).state).size = psize := by
  by_cases hz :
      p.nr_readers - (if rd then 1 else 0) +
        (p.nr_writers - (if wr then 1 else 0)) = 0
  · simp only [pipe_release]
    rw [if_pos hz]
    exact ⟨rfl, rfl, ⟨fun _ => hz, fun _ => rfl⟩, rfl, rfl, rfl, rfl, rfl, rfl⟩
  · simp only [pipe_release]
    rw [if_neg hz, halloc]
    refine ⟨rfl, rfl, ⟨fun h => absurd h (by decide), fun h => absurd h hz⟩,
            rfl, rfl, rfl, rfl, rfl, rfl⟩

/-- Witness for `release_frees_last_open_resets`: releasing the only
read-write session of a fresh pipe of size 4 frees the buffer, and a
subsequent open of size 8 reallocates and resets the ring fields. -/
theorem release_frees_last_open_resets_witness :
    (freshPipe 4).rbuf_alloc = true ∧
    ((pipe_release true true (freshPipe 4)).nr_readers =
       (freshPipe 4).nr_readers - 1 ∧
     (pipe_release true true (freshPipe 4)).nr_writers =
       (freshPipe 4).nr_writers - 1 ∧
     ((pipe_release true true (freshPipe 4)).rbuf_alloc = false ↔
        (pipe_release true true (freshPipe 4)).nr_readers +
          (pipe_release true true (freshPipe 4)).nr_writers = 0) ∧
     (pipe_open 8 true false false (pipe_release true true (freshPipe 4))).succeeded = true ∧
     ((pipe_open 8 true false false (pipe_release true true (freshPipe 4))).state).rbuf_alloc = true ∧
     ((pipe_open 8 true false false (pipe_release true true (freshPipe 4))).state).count = 0 ∧
     ((pipe_open 8 true false false (pipe_release true true (freshPipe 4))).state).readp = 0 ∧
     ((pipe_open 8 true false false (pipe_release true true (freshPipe 4))).state).writep = 0 ∧
     ((pipe_open 8 true false false (pipe_release true true (freshPipe 4))).state).size = 8) :=
  ⟨rfl, release_frees_last_open_resets (freshPipe 4) true true true false 8 rfl⟩

/-- A pipe of size 4 occupied so that `writep < readp` (bytes at offsets
3, 0, 1, so `count = 3`): the configuration the wrap-around claim quantifies
over.  The backing memory holds byte `10 + a` at offset `a`. -/
def wrapWriteState : Pipe :=
  { rbuf_alloc := true, rbuf := fun a => 10 + a, readp := 3, writep := 2,
    count := 3, size := 4, nr_readers := 1, nr_writers := 1 }

/-- A pipe of size 4 in the wrapped read layout (`readp ≥ writep`, bytes at
offsets 1, 2, 3) where a 1-byte read needs no bottom-half copy. -/
def wrapReadState : Pipe :=
  { rbuf_alloc := true, rbuf := fun a => 10 + a, readp := 1, writep := 0,
    count := 3, size := 4, nr_readers := 1, nr_writers := 1 }

/-- C4 counterexample.  First input: on `wrapWriteState` (`writep = 2 <
readp = 3`, `size = 4`) a 3-byte write crosses the buffer end, but the code
takes the contiguous branch (src/pipe.c lines 245-253): it does not split
into a `size - writep = 2` top segment plus a 1-byte bottom segment ending
with `writep = 1`; instead it copies 3 bytes linearly, storing the last byte
past the end of the buffer (offset 4), writing nothing at offset 0, and
leaving `writep = 5`, outside `[0, size)`.  The split branch (lines 222-244)
runs only when `readp < writep`.  Second input: on `wrapReadState` a 1-byte
wrapped read with no bottom-half copy sets `readp = count - topcount = 0`
(line 173), not the offset 2 just past the last byte consumed. -/
theorem wraparound_claim_counterexample :
    ((pipe_write false false false [20, 21, 22] wrapWriteState).count? = some 3 ∧
     (pipe_write false false false [20, 21, 22] wrapWriteState).writep? = some 5 ∧
     ((pipe_write false false false [20, 21, 22] wrapWriteState).state).rbuf 4 = 22 ∧
     ((pipe_write false false false [20, 21, 22] wrapWriteState).state).rbuf 0 = 10 ∧
     (5 : Nat) ≠ 1) ∧
    ((pipe_read false false false 1 wrapReadState).bytes? = some [11] ∧
     (pipe_read false false false 1 wrapReadState).readp? = some 0 ∧
     (0 : Nat) ≠ 2) := by
  decide

/-- `memcpy` model: an address below the destination range is untouched. -/
lemma writeBytes_lt (m : Nat → Nat) (off : Nat) (l : List Nat) (a : Nat)
    (h : a < off) : writeBytes m off l a = m a := by
  unfold writeBytes; rw [if_neg (by omega)]

/-- `memcpy` model: an address at or past the end of the destination range is
untouched. -/
lemma writeBytes_ge (m : Nat → Nat) (off : Nat) (l : List Nat) (a : Nat)
    (h : off + l.length ≤ a) : writeBytes m off l a = m a := by
  unfold writeBytes; rw [if_neg (by omega)]

/-- `memcpy` model: an address inside the destination range holds the copied
byte. -/
lemma writeBytes_mid (m : Nat → Nat) (off : Nat) (l : List Nat) (a : Nat)
    (h1 : off ≤ a) (h2 : a < off + l.length) :
    writeBytes m off l a = l.getD (a - off) 0 := by
  unfold writeBytes; rw [if_pos ⟨h1, h2⟩]

/-- A copy out of the buffer moves exactly `n` bytes. -/
lemma readBytes_length (m : Nat → Nat) (off n : Nat) :
    (readBytes m off n).length = n := by
  induction n generalizing off with
  | zero => rfl
  | succ n ih => simp [readBytes, ih]

/-- Two byte maps agreeing on a range give the same copy out of it. -/
lemma readBytes_congr {m1 m2 : Nat → Nat} {off n : Nat}
    (h : ∀ i, i < n → m1 (off + i) = m2 (off + i)) :
    readBytes m1 off n = readBytes m2 off n := by
  induction n generalizing off with
  | zero => rfl
  | succ n ih =>
      unfold readBytes
      congr 1
      · simpa using h 0 (by omega)
      · refine ih fun i hi => ?_
        have h2 := h (i + 1) (by omega)
        have e : off + (i + 1) = off + 1 + i := by omega
        rwa [e] at h2

/-- A copy of `a + b` bytes is the copy of the first `a` bytes followed by
the copy of the next `b`. -/
lemma readBytes_add (m : Nat → Nat) (off a b : Nat) :
    readBytes m off (a + b) = readBytes m off a ++ readBytes m (off + a) b := by
  induction a generalizing off with
  | zero => simp [readBytes]
  | succ a ih =>
      have e : a + 1 + b = (a + b) + 1 := by omega
      rw [e]
      unfold readBytes
      rw [ih]
      have e2 : off + 1 + a = off + (a + 1) := by omega
      rw [e2]
      simp [List.cons_append]
      cases b <;> rfl

/-- A copy out of the buffer is the list it is pointwise equal to. -/
lemma readBytes_eq_of {m : Nat → Nat} {off n : Nat} {l : List Nat}
    (hlen : l.length = n) (h : ∀ i, i < n → m (off + i) = l.getD i 0) :
    readBytes m off n = l := by
  induction n generalizing off l with
  | zero =>
      cases l with
      | nil => rfl
      | cons x xs => simp at hlen
  | succ n ih =>
      cases l with
      | nil => simp at hlen
      | cons x xs =>
          unfold readBytes
          congr 1
          · simpa using h 0 (by omega)
          · refine ih (by simpa using hlen) fun i hi => ?_
            have h2 := h (i + 1) (by omega)
            have e : off + (i + 1) = off + 1 + i := by omega
            rw [e] at h2
            simpa using h2

/-- Fault-free `pipe_write` in the two-segment branch (`readp < writep`,
src/pipe.c lines 222-244): top half at `p_writep`, bottom half at 0,
`p_writep = count - topcount`. -/
lemma pipe_write_wrap_ok (nb : Bool) (data : List Nat) (p : Pipe)
    (hfull : ¬ p.count = p.size) (hrw : p.readp < p.writep) :
    pipe_write nb false false data p =
      WriteResult.ok (clampCount p data.length)
        { p with
            rbuf := writeBytes
              (writeBytes p.rbuf p.writep
                (data.take (topSeg p.writep p (clampCount p data.length))))
              0
              ((data.drop (topSeg p.writep p (clampCount p data.length))).take
                (clampCount p data.length -
                 topSeg p.writep p (clampCount p data.length))),
            writep := clampCount p data.length -
                      topSeg p.writep p (clampCount p data.length),
            count := p.count + clampCount p data.length }
        WQueue.readq := by
  unfold pipe_write
  rw [if_neg hfull, if_pos hrw, if_neg (by simp [cfault]), if_neg (by simp [cfault])]

/-- Fault-free `pipe_read` in the two-segment branch (`¬ readp < writep`,
src/pipe.c lines 151-174): top half from `p_readp`, bottom half from 0,
`p_readp = count - topcount`. -/
lemma pipe_read_wrap_ok (nb : Bool) (k : Nat) (p : Pipe)
    (h0 : ¬ p.count = 0) (hrw : ¬ p.readp < p.writep) :
    pipe_read nb false false k p =
      ReadResult.ok
        (readBytes p.rbuf p.readp (topSeg p.readp p (clampCount p k)) ++
         readBytes p.rbuf 0 (clampCount p k - topSeg p.readp p (clampCount p k)))
        { p with
            readp := clampCount p k - topSeg p.readp p (clampCount p k),
            count := p.count - clampCount p k }
        WQueue.writeq := by
  unfold pipe_read
  rw [if_neg h0, if_neg hrw, if_neg (by simp [cfault]), if_neg (by simp [cfault])]

/-- C4, amended to the behavior of the code.  The splitting write happens in
the layout `readPos < writePos` (not `writePos < readPos`): when the
(clamped) request `k = |data|` crosses the buffer end (`k > size - writePos`)
and also fits the free space, the write splits into a top segment of
`size - writePos` bytes at `writePos` and a bottom segment of
`k - (size - writePos)` bytes at offset 0, leaving `writePos` just past the
bottom segment; a subsequent wrapped read of all `count + k` buffered bytes
returns the previously buffered bytes followed by the `k` written bytes in
original order, and leaves `readPos = k - (size - writePos)`, the offset
just past its own bottom-half copy. -/
theorem wraparound_split_roundtrip (p : Pipe) (data : List Nat) (nb nb2 : Bool)
    (hrw : p.readp < p.writep) (hwp : p.writep < p.size)
    (hcnt : p.count = p.writep - p.readp)
    (hlen : data.length ≤ p.count)
    (hcross : p.size - p.writep < data.length)
    (hfree : data.length ≤ p.size - p.count) :
    ∃ q r : Pipe,
      pipe_write nb false false data p =
        WriteResult.ok data.length q WQueue.readq ∧
      topSeg p.writep p (clampCount p data.length) = p.size - p.writep ∧
      q.writep = data.length - (p.size - p.writep) ∧
      q.readp = p.readp ∧
      q.count = p.count + data.length ∧
      pipe_read nb2 false false (p.count + data.length) q =
        ReadResult.ok (readBytes p.rbuf p.readp p.count ++ data) r
          WQueue.writeq ∧
      r.readp = data.length - (p.size - p.writep) ∧
      r.count = 0 := by
  have hfull : ¬ p.count = p.size := by omega
  have hclamp : clampCount p data.length = data.length := by
    unfold clampCount; rw [if_neg (by omega)]
  have htop : topSeg p.writep p data.length = p.size - p.writep := by
    unfold topSeg; rw [if_neg (by omega)]
  have hwq := pipe_write_wrap_ok nb data p hfull hrw
  rw [hclamp, htop] at hwq
  have houter :
      (data.drop (p.size - p.writep)).take (data.length - (p.size - p.writep)) =
        data.drop (p.size - p.writep) := by
    rw [show data.length - (p.size - p.writep) =
          (data.drop (p.size - p.writep)).length by simp, List.take_length]
  rw [houter] at hwq
  obtain ⟨q, hwq2, hqrbuf, hqreadp, hqwritep, hqcount, hqsize⟩ :
      ∃ q : Pipe,
        pipe_write nb false false data p =
          WriteResult.ok data.length q WQueue.readq ∧
        q.rbuf = writeBytes
          (writeBytes p.rbuf p.writep (data.take (p.size - p.writep)))
          0 (data.drop (p.size - p.writep)) ∧
        q.readp = p.readp ∧
        q.writep = data.length - (p.size - p.writep) ∧
        q.count = p.count + data.length ∧
        q.size = p.size :=
    ⟨_, hwq, rfl, rfl, rfl, rfl, rfl⟩
  have hq0 : ¬ q.count = 0 := by rw [hqcount]; omega
  have hqrw : ¬ q.readp < q.writep := by rw [hqreadp, hqwritep]; omega
  have hrd := pipe_read_wrap_ok nb2 (p.count + data.length) q hq0 hqrw
  have hclamp2 : clampCount q (p.count + data.length) = p.count + data.length := by
    unfold clampCount; rw [hqcount]; rw [if_neg (by omega)]
  have htop2 : topSeg q.readp q (p.count + data.length) = p.size - p.readp := by
    unfold topSeg; rw [hqreadp, hqsize]; rw [if_neg (by omega)]
  rw [hclamp2, htop2, hqreadp] at hrd
  have e3 : p.count + data.length - (p.size - p.readp) =
      data.length - (p.size - p.writep) := by omega
  rw [e3] at hrd
  have hsplit : p.size - p.readp = p.count + (p.size - p.writep) := by omega
  rw [hsplit, readBytes_add,
      show p.readp + p.count = p.writep by omega] at hrd
  have hdlen : (data.drop (p.size - p.writep)).length =
      data.length - (p.size - p.writep) := by simp
  have part1 : readBytes q.rbuf p.readp p.count =
      readBytes p.rbuf p.readp p.count := by
    refine readBytes_congr fun i hi => ?_
    rw [hqrbuf]
    rw [writeBytes_ge _ _ _ _ (by rw [hdlen]; omega)]
    rw [writeBytes_lt _ _ _ _ (by omega)]
  have part2 : readBytes q.rbuf p.writep (p.size - p.writep) =
      data.take (p.size - p.writep) := by
    refine readBytes_eq_of (by simp; omega) fun i hi => ?_
    rw [hqrbuf]
    rw [writeBytes_ge _ _ _ _ (by rw [hdlen]; omega)]
    rw [writeBytes_mid _ _ _ _ (by omega) (by simp; omega)]
    rw [Nat.add_sub_cancel_left]
  have part3 : readBytes q.rbuf 0 (data.length - (p.size - p.writep)) =
      data.drop (p.size - p.writep) := by
    refine readBytes_eq_of hdlen fun i hi => ?_
    rw [hqrbuf]
    rw [writeBytes_mid _ _ _ _ (by omega) (by rw [hdlen]; omega)]
    simp
  rw [part1, part2, part3, List.append_assoc] at hrd
  rw [List.take_append_drop] at hrd
  obtain ⟨r, hrd2, hrreadp, hrcount⟩ :
      ∃ r : Pipe,
        pipe_read nb2 false false (p.count + data.length) q =
          ReadResult.ok (readBytes p.rbuf p.readp p.count ++ data) r
            WQueue.writeq ∧
        r.readp = data.length - (p.size - p.writep) ∧
        r.count = q.count - (p.count + data.length) :=
    ⟨_, hrd, rfl, rfl⟩
  refine ⟨q, r, hwq2, by rw [hclamp]; exact htop, hqwritep, hqreadp, hqcount,
          hrd2, hrreadp, ?_⟩
  rw [hrcount, hqcount]
  omega

/-- A pipe of size 4 with `readp = 1 < writep = 3` and consistent
`count = 2` (old bytes at offsets 1 and 2), with one free slot before the
buffer end: a 2-byte write crosses the end and splits. -/
def wrapWitnessState : Pipe :=
  { rbuf_alloc := true, rbuf := fun a => 10 + a, readp := 1, writep := 3,
    count := 2, size := 4, nr_readers := 1, nr_writers := 1 }

/-- Witness for `wraparound_split_roundtrip`: size 4, old bytes 11, 12 at
offsets 1, 2 (`readp = 1`, `writep = 3`), then a 2-byte write `[20, 21]`
that crosses the end (top byte at offset 3, bottom byte at offset 0),
followed by a 4-byte read returning `[11, 12, 20, 21]`. -/
theorem wraparound_split_roundtrip_witness :
    (wrapWitnessState.readp < wrapWitnessState.writep ∧
     wrapWitnessState.writep < wrapWitnessState.size ∧
     wrapWitnessState.count = wrapWitnessState.writep - wrapWitnessState.readp ∧
     [20, 21].length ≤ wrapWitnessState.count ∧
     wrapWitnessState.size - wrapWitnessState.writep < [20, 21].length ∧
     [20, 21].length ≤ wrapWitnessState.size - wrapWitnessState.count) ∧
    (∃ q r : Pipe,
      pipe_write false false false [20, 21] wrapWitnessState =
        WriteResult.ok ([20, 21] : List Nat).length q WQueue.readq ∧
      topSeg wrapWitnessState.writep wrapWitnessState
          (clampCount wrapWitnessState ([20, 21] : List Nat).length) =
        wrapWitnessState.size - wrapWitnessState.writep ∧
      q.writep = ([20, 21] : List Nat).length -
        (wrapWitnessState.size - wrapWitnessState.writep) ∧
      q.readp = wrapWitnessState.readp ∧
      q.count = wrapWitnessState.count + ([20, 21] : List Nat).length ∧
      pipe_read false false false
          (wrapWitnessState.count + ([20, 21] : List Nat).length) q =
        ReadResult.ok
          (readBytes wrapWitnessState.rbuf wrapWitnessState.readp
             wrapWitnessState.count ++ [20, 21]) r WQueue.writeq ∧
      r.readp = ([20, 21] : List Nat).length -
        (wrapWitnessState.size - wrapWitnessState.writep) ∧
      r.count = 0) :=
  ⟨⟨by decide, by decide, by decide, by decide, by decide, by decide⟩,
   wraparound_split_roundtrip wrapWitnessState [20, 21] false false
     (by decide) (by decide) (by decide) (by decide) (by decide) (by decide)⟩

end MyPipe
